import Mathlib

/-!
Shallow embedding of `src/utils/market_intelligence.py` (class
`MarketIntelligence`): TAM/SAM/SOM market sizing, revenue-growth
projection, per-country aggregation, and the report orchestrator.

Modelling choices:
* a pandas DataFrame of partner records is a `List PartnerRecord`;
* float values are exact rationals (`ℚ`); decimal literals of the source
  (`0.15`, `1.5`, `1.3`, `1.6`) are the rationals they denote;
* a possibly-missing (NaN) `kaycore_fit_score` is an `Option ℚ`; the pandas
  comparison `NaN >= c` is `false`, which is the `none` branch below;
* Python `int(x)` truncates toward zero: `pyInt`;
* pandas `.round(2)` is round-half-to-even at two decimals: `round2`;
* `df.groupby('country')` uses the pandas default `sort=True`: group keys
  are the distinct country values in ascending order.
-/

/-- One row of the input table. -/
structure PartnerRecord where
  revenue_usd : ℚ
  kaycore_fit_score : Option ℚ
  country : String
  partnership_priority : String
deriving Repr, DecidableEq

/-- The input table: a list of rows. -/
abbrev DataFrame := List PartnerRecord

/-- Python `int()` on a rational: truncation toward zero. -/
def pyInt (q : ℚ) : ℤ :=
  if q < 0 then ⌈q⌉ else ⌊q⌋

/-- Round a rational to the nearest integer, ties to even
(the rounding used by pandas `.round`). -/
def roundHalfEven (q : ℚ) : ℤ :=
  if q - ⌊q⌋ < 1/2 then ⌊q⌋
  else if 1/2 < q - ⌊q⌋ then ⌊q⌋ + 1
  else if ⌊q⌋ % 2 = 0 then ⌊q⌋ else ⌊q⌋ + 1

/-- pandas `.round(2)`: round to two decimal places, ties to even. -/
def round2 (q : ℚ) : ℚ :=
  (roundHalfEven (q * 100) : ℚ) / 100

/-- Result record of `calculate_tam_sam_som`. -/
structure MarketSizing where
  tam_usd : ℚ
  sam_usd : ℚ
  som_usd : ℚ
  tam_partners : ℕ
  sam_partners : ℕ
  som_partners : ℕ
deriving Repr, DecidableEq

/-- The pandas mask `df['kaycore_fit_score'] >= c`; `NaN >= c` is false. -/
def fitScoreAtLeast (c : ℚ) (r : PartnerRecord) : Bool :=
  match r.kaycore_fit_score with
  | some s => decide (c ≤ s)
  | none => false

/-- `MarketIntelligence.calculate_tam_sam_som`. -/
def calculate_tam_sam_som (df : DataFrame) : MarketSizing :=
  let sam_partners := df.filter (fitScoreAtLeast 5)
  let som_partners := df.filter (fitScoreAtLeast 7)
  { tam_usd := (df.map (·.revenue_usd)).sum
    sam_usd := (sam_partners.map (·.revenue_usd)).sum
    som_usd := (som_partners.map (·.revenue_usd)).sum * (15/100)
    tam_partners := df.length
    sam_partners := sam_partners.length
    som_partners := som_partners.length }

/-- Result record of `project_revenue_growth`. -/
structure GrowthProjection where
  year1_revenue : ℚ
  year2_revenue : ℚ
  year3_revenue : ℚ
  year1_partners : ℤ
  year2_partners : ℤ
  year3_partners : ℤ
deriving Repr, DecidableEq

/-- `MarketIntelligence.project_revenue_growth`.  The instance's DataFrame is
passed explicitly; the body never reads it. -/
def project_revenue_growth (_df : DataFrame)
    (target_partners : ℤ := 50) (avg_deal_size : ℚ := 50000) :
    GrowthProjection :=
  let year1_revenue : ℚ := target_partners * avg_deal_size
  let year2_revenue := year1_revenue * (3/2)
  let year3_revenue := year2_revenue * (13/10)
  { year1_revenue := year1_revenue
    year2_revenue := year2_revenue
    year3_revenue := year3_revenue
    year1_partners := target_partners
    year2_partners := pyInt ((target_partners : ℚ) * (13/10))
    year3_partners := pyInt ((target_partners : ℚ) * (16/10)) }

/-- One output row of `analyze_by_country` (after renaming the aggregated
columns). -/
structure CountryRow where
  country : String
  total_revenue : ℚ
  avg_revenue : ℚ
  num_partners : ℚ
  avg_fit_score : ℚ
  high_priority_count : ℚ
deriving Repr, DecidableEq

/-- The list of present (non-null) fit scores of a group. -/
def presentScores (g : List PartnerRecord) : List ℚ :=
  g.filterMap (·.kaycore_fit_score)

/-- The aggregation `.agg({...}).round(2)` applied to one country group. -/
def aggCountry (c : String) (g : List PartnerRecord) : CountryRow :=
  let revs := g.map (·.revenue_usd)
  let scores := presentScores g
  { country := c
    total_revenue := round2 revs.sum
    avg_revenue := round2 (revs.sum / g.length)
    num_partners := round2 (g.length : ℚ)
    avg_fit_score := round2 (scores.sum / scores.length)
    high_priority_count :=
      round2 ((g.filter (·.partnership_priority == "High")).length : ℚ) }

/-- The group keys of `df.groupby('country')`: the distinct country values in
ascending order (the pandas default `sort=True`). -/
def countryKeys (df : DataFrame) : List String :=
  List.insertionSort (· ≤ ·) (df.map (·.country)).dedup

/-- `MarketIntelligence.analyze_by_country`. -/
def analyze_by_country (df : DataFrame) : List CountryRow :=
  (countryKeys df).map fun c => aggCountry c (df.filter (·.country == c))

/-- The bundled report record of `generate_report`. -/
structure Report where
  market_sizing : MarketSizing
  growth_projection : GrowthProjection
  country_breakdown : List CountryRow
deriving Repr, DecidableEq

/-- `MarketIntelligence.generate_report` (the returned record; the CSV writes
are I/O outside the embedding). -/
def generate_report (df : DataFrame) : Report :=
  { market_sizing := calculate_tam_sam_som df
    growth_projection := project_revenue_growth df
    country_breakdown := analyze_by_country df }

/-! ### Helper lemmas -/

/-- A row that passes the SOM mask (score ≥ 7) passes the SAM mask (score ≥ 5). -/
theorem fitScoreAtLeast_seven_imp_five (r : PartnerRecord) :
    fitScoreAtLeast 7 r = true → fitScoreAtLeast 5 r = true := by
  unfold fitScoreAtLeast
  cases r.kaycore_fit_score with
  | none => simp
  | some s =>
    simp only [decide_eq_true_eq]
    intro h
    linarith

/-- `roundHalfEven` fixes integers. -/
theorem roundHalfEven_intCast (k : ℤ) : roundHalfEven (k : ℚ) = k := by
  unfold roundHalfEven
  rw [Int.floor_intCast]
  norm_num

/-- `round2` is idempotent: its output is already rounded to 2 decimals. -/
theorem round2_idem (q : ℚ) : round2 (round2 q) = round2 q := by
  unfold round2
  rw [div_mul_cancel₀ _ (by norm_num : (100 : ℚ) ≠ 0), roundHalfEven_intCast]

/-- `pyInt` agrees with `Int.floor` on non-negative rationals. -/
theorem pyInt_eq_floor_of_nonneg (q : ℚ) (h : 0 ≤ q) : pyInt q = ⌊q⌋ := by
  unfold pyInt
  rw [if_neg (not_lt.mpr h)]

/-! ### Claims -/

/-- C1: when every row's `revenue_usd` is non-negative, the market sizing
satisfies `sam_usd ≤ tam_usd`, `sam_partners ≤ tam_partners` and
`som_partners ≤ sam_partners`. -/
theorem tam_sam_som_invariants (df : DataFrame)
    (h : ∀ r ∈ df, 0 ≤ r.revenue_usd) :
    (calculate_tam_sam_som df).sam_usd ≤ (calculate_tam_sam_som df).tam_usd ∧
    (calculate_tam_sam_som df).sam_partners ≤
      (calculate_tam_sam_som df).tam_partners ∧
    (calculate_tam_sam_som df).som_partners ≤
      (calculate_tam_sam_som df).sam_partners := by
  refine ⟨?_, ?_, ?_⟩
  · exact List.Sublist.sum_le_sum
      ((List.filter_sublist df).map (·.revenue_usd))
      (by
        intro a ha
        obtain ⟨r, hr, rfl⟩ := List.mem_map.mp ha
        exact h r hr)
  · exact List.length_filter_le _ df
  · exact (List.monotone_filter_right df
      fitScoreAtLeast_seven_imp_five).length_le

/-- Witness for C1 at a concrete two-row table. -/
theorem tam_sam_som_invariants_witness :
    (calculate_tam_sam_som
      [⟨100, some 8, "US", "High"⟩, ⟨200, some 4, "DE", "Low"⟩]).sam_usd ≤
    (calculate_tam_sam_som
      [⟨100, some 8, "US", "High"⟩, ⟨200, some 4, "DE", "Low"⟩]).tam_usd ∧
    (calculate_tam_sam_som
      [⟨100, some 8, "US", "High"⟩, ⟨200, some 4, "DE", "Low"⟩]).sam_partners ≤
    (calculate_tam_sam_som
      [⟨100, some 8, "US", "High"⟩, ⟨200, some 4, "DE", "Low"⟩]).tam_partners ∧
    (calculate_tam_sam_som
      [⟨100, some 8, "US", "High"⟩, ⟨200, some 4, "DE", "Low"⟩]).som_partners ≤
    (calculate_tam_sam_som
      [⟨100, some 8, "US", "High"⟩, ⟨200, some 4, "DE", "Low"⟩]).sam_partners :=
  tam_sam_som_invariants _ (by
    intro r hr
    simp only [List.mem_cons, List.not_mem_nil, or_false] at hr
    rcases hr with rfl | rfl <;> decide)

/-- C2: for positive `target_partners` and `avg_deal_size`, the projection's
revenues are `tp·ads`, `·1.5`, `·1.3` and its partner counts are `tp`,
`⌊tp·1.3⌋`, `⌊tp·1.6⌋`. -/
theorem project_revenue_growth_spec (df : DataFrame) (tp : ℤ) (ads : ℚ)
    (h1 : 0 < tp) (h2 : 0 < ads) :
    (project_revenue_growth df tp ads).year1_revenue = tp * ads ∧
    (project_revenue_growth df tp ads).year2_revenue =
      (project_revenue_growth df tp ads).year1_revenue * (3/2) ∧
    (project_revenue_growth df tp ads).year3_revenue =
      (project_revenue_growth df tp ads).year2_revenue * (13/10) ∧
    (project_revenue_growth df tp ads).year1_partners = tp ∧
    (project_revenue_growth df tp ads).year2_partners =
      ⌊(tp : ℚ) * (13/10)⌋ ∧
    (project_revenue_growth df tp ads).year3_partners =
      ⌊(tp : ℚ) * (16/10)⌋ := by
  have htp : (0 : ℚ) ≤ (tp : ℚ) := by exact_mod_cast h1.le
  refine ⟨rfl, rfl, rfl, rfl, ?_, ?_⟩
  · exact pyInt_eq_floor_of_nonneg _ (by positivity)
  · exact pyInt_eq_floor_of_nonneg _ (by positivity)

/-- Witness for C2 at `target_partners = 3`, `avg_deal_size = 2`. -/
theorem project_revenue_growth_spec_witness :
    (project_revenue_growth [] 3 2).year1_revenue = (3 : ℤ) * (2 : ℚ) ∧
    (project_revenue_growth [] 3 2).year2_revenue =
      (project_revenue_growth [] 3 2).year1_revenue * (3/2) ∧
    (project_revenue_growth [] 3 2).year3_revenue =
      (project_revenue_growth [] 3 2).year2_revenue * (13/10) ∧
    (project_revenue_growth [] 3 2).year1_partners = 3 ∧
    (project_revenue_growth [] 3 2).year2_partners = ⌊(3 : ℚ) * (13/10)⌋ ∧
    (project_revenue_growth [] 3 2).year3_partners = ⌊(3 : ℚ) * (16/10)⌋ :=
  project_revenue_growth_spec [] 3 2 (by decide) (by decide)

/-- C3: with the default parameters `(50, 50000)` the projection is the fixed
record below, for every input table. -/
theorem project_defaults_value (df : DataFrame) :
    project_revenue_growth df 50 50000 =
      { year1_revenue := 2500000, year2_revenue := 3750000,
        year3_revenue := 4875000, year1_partners := 50,
        year2_partners := 65, year3_partners := 80 } := by
  simp [project_revenue_growth, pyInt]
  norm_num

/-- C4: appending a row whose `kaycore_fit_score` is missing adds its revenue
to TAM and one to the TAM partner count, and changes none of the SAM/SOM
figures. -/
theorem null_fit_score_excluded (df : DataFrame) (r : PartnerRecord)
    (h : r.kaycore_fit_score = none) :
    (calculate_tam_sam_som (df ++ [r])).tam_usd =
      (calculate_tam_sam_som df).tam_usd + r.revenue_usd ∧
    (calculate_tam_sam_som (df ++ [r])).tam_partners =
      (calculate_tam_sam_som df).tam_partners + 1 ∧
    (calculate_tam_sam_som (df ++ [r])).sam_usd =
      (calculate_tam_sam_som df).sam_usd ∧
    (calculate_tam_sam_som (df ++ [r])).som_usd =
      (calculate_tam_sam_som df).som_usd ∧
    (calculate_tam_sam_som (df ++ [r])).sam_partners =
      (calculate_tam_sam_som df).sam_partners ∧
    (calculate_tam_sam_som (df ++ [r])).som_partners =
      (calculate_tam_sam_som df).som_partners := by
  have hmask : ∀ c : ℚ, fitScoreAtLeast c r = false := by
    intro c
    unfold fitScoreAtLeast
    rw [h]
  simp [calculate_tam_sam_som, List.filter_append, hmask]

/-- Witness for C4 with a one-row table and a null-score row. -/
theorem null_fit_score_excluded_witness :
    (calculate_tam_sam_som
      ([⟨100, some 8, "US", "High"⟩] ++ [⟨7, none, "DE", "Low"⟩])).tam_usd =
      (calculate_tam_sam_som [⟨100, some 8, "US", "High"⟩]).tam_usd + 7 ∧
    (calculate_tam_sam_som
      ([⟨100, some 8, "US", "High"⟩] ++ [⟨7, none, "DE", "Low"⟩])).tam_partners =
      (calculate_tam_sam_som [⟨100, some 8, "US", "High"⟩]).tam_partners + 1 ∧
    (calculate_tam_sam_som
      ([⟨100, some 8, "US", "High"⟩] ++ [⟨7, none, "DE", "Low"⟩])).sam_usd =
      (calculate_tam_sam_som [⟨100, some 8, "US", "High"⟩]).sam_usd ∧
    (calculate_tam_sam_som
      ([⟨100, some 8, "US", "High"⟩] ++ [⟨7, none, "DE", "Low"⟩])).som_usd =
      (calculate_tam_sam_som [⟨100, some 8, "US", "High"⟩]).som_usd ∧
    (calculate_tam_sam_som
      ([⟨100, some 8, "US", "High"⟩] ++ [⟨7, none, "DE", "Low"⟩])).sam_partners =
      (calculate_tam_sam_som [⟨100, some 8, "US", "High"⟩]).sam_partners ∧
    (calculate_tam_sam_som
      ([⟨100, some 8, "US", "High"⟩] ++ [⟨7, none, "DE", "Low"⟩])).som_partners =
      (calculate_tam_sam_som [⟨100, some 8, "US", "High"⟩]).som_partners :=
  null_fit_score_excluded [⟨100, some 8, "US", "High"⟩]
    ⟨7, none, "DE", "Low"⟩ rfl

/-- C5: the empty table yields the all-zero market sizing and an empty country
breakdown, with no error. -/
theorem empty_table_results :
    calculate_tam_sam_som [] =
      { tam_usd := 0, sam_usd := 0, som_usd := 0, tam_partners := 0,
        sam_partners := 0, som_partners := 0 } ∧
    analyze_by_country [] = [] := by
  constructor
  · simp [calculate_tam_sam_som]
  · rfl

/-- C6: the two-row "US" table aggregates to total 300, mean 150, two
partners, mean fit score 5, one high-priority row. -/
theorem us_two_rows_breakdown :
    analyze_by_country
      [⟨100, some 4, "US", "High"⟩, ⟨200, some 6, "US", "Low"⟩] =
    [{ country := "US", total_revenue := 300, avg_revenue := 150,
       num_partners := 2, avg_fit_score := 5, high_priority_count := 1 }] := by
  simp [analyze_by_country, countryKeys, aggCountry, presentScores,
    round2, roundHalfEven, List.insertionSort, List.orderedInsert]
  norm_num

/-- C7: every numeric field of every row of the country breakdown equals its
own rounding to two decimal places. -/
theorem breakdown_values_rounded (df : DataFrame) (row : CountryRow)
    (hrow : row ∈ analyze_by_country df) :
    round2 row.total_revenue = row.total_revenue ∧
    round2 row.avg_revenue = row.avg_revenue ∧
    round2 row.num_partners = row.num_partners ∧
    round2 row.avg_fit_score = row.avg_fit_score ∧
    round2 row.high_priority_count = row.high_priority_count := by
  simp only [analyze_by_country, List.mem_map] at hrow
  obtain ⟨c, hc, rfl⟩ := hrow
  exact ⟨round2_idem _, round2_idem _, round2_idem _, round2_idem _,
    round2_idem _⟩

/-- Witness for C7 at a one-row table. -/
theorem breakdown_values_rounded_witness :
    round2 (aggCountry "US"
      (List.filter (fun r => r.country == "US")
        [⟨100, some 4, "US", "High"⟩])).total_revenue =
      (aggCountry "US"
        (List.filter (fun r => r.country == "US")
          [⟨100, some 4, "US", "High"⟩])).total_revenue ∧
    round2 (aggCountry "US"
      (List.filter (fun r => r.country == "US")
        [⟨100, some 4, "US", "High"⟩])).avg_revenue =
      (aggCountry "US"
        (List.filter (fun r => r.country == "US")
          [⟨100, some 4, "US", "High"⟩])).avg_revenue ∧
    round2 (aggCountry "US"
      (List.filter (fun r => r.country == "US")
        [⟨100, some 4, "US", "High"⟩])).num_partners =
      (aggCountry "US"
        (List.filter (fun r => r.country == "US")
          [⟨100, some 4, "US", "High"⟩])).num_partners ∧
    round2 (aggCountry "US"
      (List.filter (fun r => r.country == "US")
        [⟨100, some 4, "US", "High"⟩])).avg_fit_score =
      (aggCountry "US"
        (List.filter (fun r => r.country == "US")
          [⟨100, some 4, "US", "High"⟩])).avg_fit_score ∧
    round2 (aggCountry "US"
      (List.filter (fun r => r.country == "US")
        [⟨100, some 4, "US", "High"⟩])).high_priority_count =
      (aggCountry "US"
        (List.filter (fun r => r.country == "US")
          [⟨100, some 4, "US", "High"⟩])).high_priority_count :=
  breakdown_values_rounded [⟨100, some 4, "US", "High"⟩] _
    (by simp [analyze_by_country, countryKeys, List.insertionSort,
      List.orderedInsert])

/-- C8: the report bundles exactly the three computations, the projection at
its defaults `(50, 50000)`. -/
theorem generate_report_components (df : DataFrame) :
    (generate_report df).market_sizing = calculate_tam_sam_som df ∧
    (generate_report df).growth_projection =
      project_revenue_growth df 50 50000 ∧
    (generate_report df).country_breakdown = analyze_by_country df :=
  ⟨rfl, rfl, rfl⟩

/-- C9: the country breakdown lists its groups in strictly ascending order of
the country key. -/
theorem breakdown_sorted_by_country (df : DataFrame) :
    ((analyze_by_country df).map (·.country)).Sorted (· < ·) := by
  have h1 : (analyze_by_country df).map (·.country) = countryKeys df := by
    unfold analyze_by_country
    rw [List.map_map]
    exact List.map_id _
  rw [h1]
  have hsorted : (countryKeys df).Sorted (· ≤ ·) :=
    List.sorted_insertionSort _ _
  have hnodup : (countryKeys df).Nodup :=
    ((List.perm_insertionSort _ _).nodup_iff).mpr (List.nodup_dedup _)
  exact hsorted.lt_of_le hnodup

/-- C10: for `target_partners ≥ 1` and positive `avg_deal_size`, the
projection is monotone across the three years in both revenue and partner
count. -/
theorem growth_monotone (df : DataFrame) (tp : ℤ) (ads : ℚ)
    (h1 : 1 ≤ tp) (h2 : 0 < ads) :
    (project_revenue_growth df tp ads).year1_revenue ≤
      (project_revenue_growth df tp ads).year2_revenue ∧
    (project_revenue_growth df tp ads).year2_revenue ≤
      (project_revenue_growth df tp ads).year3_revenue ∧
    (project_revenue_growth df tp ads).year1_partners ≤
      (project_revenue_growth df tp ads).year2_partners ∧
    (project_revenue_growth df tp ads).year2_partners ≤
      (project_revenue_growth df tp ads).year3_partners := by
  have htp : (1 : ℚ) ≤ (tp : ℚ) := by exact_mod_cast h1
  have htp0 : (0 : ℚ) ≤ (tp : ℚ) := by linarith
  have h0 : (0 : ℚ) ≤ (tp : ℚ) * ads := mul_nonneg htp0 h2.le
  refine ⟨?_, ?_, ?_, ?_⟩
  · exact le_mul_of_one_le_right h0 (by norm_num)
  · exact le_mul_of_one_le_right (mul_nonneg h0 (by norm_num)) (by norm_num)
  · show tp ≤ pyInt ((tp : ℚ) * (13/10))
    rw [pyInt_eq_floor_of_nonneg _ (mul_nonneg htp0 (by norm_num))]
    exact Int.le_floor.mpr (le_mul_of_one_le_right htp0 (by norm_num))
  · show pyInt ((tp : ℚ) * (13/10)) ≤ pyInt ((tp : ℚ) * (16/10))
    rw [pyInt_eq_floor_of_nonneg _ (mul_nonneg htp0 (by norm_num)),
      pyInt_eq_floor_of_nonneg _ (mul_nonneg htp0 (by norm_num))]
    exact Int.floor_mono
      (mul_le_mul_of_nonneg_left (by norm_num) htp0)

/-- Witness for C10 at `target_partners = 2`, `avg_deal_size = 1`. -/
theorem growth_monotone_witness :
    (project_revenue_growth [] 2 1).year1_revenue ≤
      (project_revenue_growth [] 2 1).year2_revenue ∧
    (project_revenue_growth [] 2 1).year2_revenue ≤
      (project_revenue_growth [] 2 1).year3_revenue ∧
    (project_revenue_growth [] 2 1).year1_partners ≤
      (project_revenue_growth [] 2 1).year2_partners ∧
    (project_revenue_growth [] 2 1).year2_partners ≤
      (project_revenue_growth [] 2 1).year3_partners :=
  growth_monotone [] 2 1 (by decide) (by decide)
